import Mathlib

/-!
Shallow embedding of the storage core of the agri-monitoring repository:
`src/services/duckDBService.js` (the StorageService with three backends)
and `src/services/duckDBSingleton.js` (the SharedInstanceRegistry).

Modelling conventions, stated once:
* JavaScript optional / nullable fields become `Option`; `null` and
  `undefined` are both `none` (they are interchangeable at every use site
  the claims touch: parameter binding stores NULL for both).
* The JS truthiness test `x || d` on our value space is: `none` is falsy,
  `some ""` is falsy for strings, `some 0` is falsy for numbers; every
  other value is truthy.  `jsOr*` mirrors `x || d` exactly.
* Numeric sensor values are `Rat` (the source stores DOUBLE; the claims
  only use equality and the zero-falsiness of JS numbers, which `Rat`
  models exactly).  Timestamps are ISO-8601 strings; both the SQL
  TIMESTAMP comparison and the JS `new Date(a) < new Date(b)` comparison
  are modelled as lexicographic string comparison, which agrees with
  chronological order on ISO-8601 strings.
* Filesystem effects: `fs.mkdir` is modelled as always succeeding
  (permission failures are declared fatal and out of scope by the spec);
  the flat-file directory is a list of files, each readable (with parsed
  JSON contents) or unreadable/corrupt.
-/

/-- Truthiness of an optional string: `undefined`, `null` and `""` are falsy. -/
def truthyStr : Option String → Bool
  | some s => s ≠ ""
  | none => false

/-- Truthiness of an optional rational number: absent and `0` are falsy. -/
def truthyRat : Option Rat → Bool
  | some q => q ≠ 0
  | none => false

/-- Truthiness of an optional integer: absent and `0` are falsy. -/
def truthyInt : Option Int → Bool
  | some n => n ≠ 0
  | none => false

/-- Truthiness of an optional natural number: absent and `0` are falsy. -/
def truthyNat : Option Nat → Bool
  | some n => n ≠ 0
  | none => false

/-- JS `x || d` on optional strings. -/
def jsOrStr (x d : Option String) : Option String := if truthyStr x then x else d

/-- JS `x || d` on optional rationals. -/
def jsOrRat (x d : Option Rat) : Option Rat := if truthyRat x then x else d

/-- JS `x || d` on optional integers. -/
def jsOrInt (x d : Option Int) : Option Int := if truthyInt x then x else d

/-- Lexicographic order on character lists (the order underlying both the
SQL string/timestamp comparison and the JS date comparison on ISO-8601
strings), written as structural recursion so that it evaluates inside the
kernel. -/
def charListLt : List Char → List Char → Bool
  | [], [] => false
  | [], _ :: _ => true
  | _ :: _, [] => false
  | a :: as, b :: bs => if a < b then true else if b < a then false else charListLt as bs

/-- Strict lexicographic comparison of strings. -/
def strLt (a b : String) : Bool := charListLt a.data b.data

/-- Non-strict lexicographic comparison of strings. -/
def strLe (a b : String) : Bool := !(strLt b a)

/-- SensorReading as handed to `insertData`: the JSON record shape.
`location.field`, `location.latitude`, `location.longitude` are the nested
location attributes (`record.location?.field` etc. in the source) and
`field` is the flattened top-level attribute (`record.field`). -/
structure SensorReading where
  sensor_id : Option String
  timestamp : Option String
  reading_type : Option String
  value : Option Rat
  unit : Option String
  location_field : Option String
  location_latitude : Option Rat
  location_longitude : Option Rat
  field : Option String
  battery_level : Option Int
  signal_strength : Option Int
  data_quality : Option String
  processed_timestamp : Option String
  quality_score : Option Int
  deriving Repr, DecidableEq

/-- Default SensorReading with every attribute absent. -/
def emptyReading : SensorReading :=
  ⟨none, none, none, none, none, none, none, none, none, none, none, none, none, none⟩

/-- One row of the `sensor_data` table (duckdb or sqlite backend), with the
backend-assigned `id`. -/
structure StoredRow where
  id : Nat
  sensor_id : Option String
  timestamp : Option String
  reading_type : Option String
  value : Option Rat
  unit : Option String
  field : Option String
  latitude : Option Rat
  longitude : Option Rat
  battery_level : Option Int
  signal_strength : Option Int
  data_quality : Option String
  processed_timestamp : Option String
  quality_score : Option Int
  deriving Repr, DecidableEq

/-- Query filters accepted by `queryData`; `limit` is a count. -/
structure Filters where
  sensor_id : Option String := none
  reading_type : Option String := none
  startDate : Option String := none
  endDate : Option String := none
  field : Option String := none
  limit : Option Nat := none
  deriving Repr, DecidableEq

/-- One file of the flat-file (fallback) directory.  `content = some rs`
is a readable JSON file parsing to the record list `rs` (a file holding a
single object is modelled as a singleton list, matching the
`Array.isArray(data) ? data : [data]` normalisation); `content = none` is
a file whose read or parse fails. -/
structure FallbackFile where
  name : String
  content : Option (List SensorReading)
  deriving Repr, DecidableEq

/-- The active backend tag (`this.dbType`). -/
inductive DbType where
  | duckdb
  | sqlite
  | fallback
  deriving Repr, DecidableEq

/-- Backing paths of one service instance (computed by the constructor). -/
structure ServicePaths where
  duckdbPath : String
  sqlitePath : String
  fallbackPath : String
  deriving Repr, DecidableEq

/-- Mutable state of one DuckDBService instance together with the state of
its backing stores.  `db` is the open connection handle (an id drawn from
`nextHandle` so that reopening is observable), `table` the contents of the
`sensor_data` table behind that handle, `nextId` the id counter (sqlite
AUTOINCREMENT / duckdb sequence, the sequence being created
IF NOT EXISTS and therefore surviving re-initialization), and `files` the
flat-file directory. -/
structure ServiceState where
  paths : ServicePaths
  db : Option Nat
  isAvailable : Bool
  dbType : Option DbType
  table : List StoredRow
  nextId : Nat
  nextHandle : Nat
  files : List FallbackFile
  deriving Repr, DecidableEq

/-- Fresh, never-initialized service over the given paths. -/
def freshService (p : ServicePaths) : ServiceState :=
  { paths := p, db := none, isAvailable := false, dbType := none,
    table := [], nextId := 1, nextHandle := 0, files := [] }

/-- Environment a call to `initialize` runs in: the two probe outcomes,
a possible construction-time error for each engine (an exception thrown
while opening the real database or creating tables, distinct from the
probe reporting `false`), and the current wall-clock ISO timestamp. -/
structure Env where
  duckdbAvailable : Bool
  sqliteAvailable : Bool
  duckdbInitError : Option String
  sqliteInitError : Option String
  now : String
  deriving Repr, DecidableEq

/-- Result object returned by `initialize`. -/
structure InitResult where
  success : Bool
  mode : String
  dbPath : String
  error : Option String
  deriving Repr, DecidableEq

/-- Body of `initializeDuckDB` plus `createDuckDBTables`: opens a fresh
handle on the duckdb file, marks the service available, and recreates the
schema.  The sequence is created IF NOT EXISTS (so `nextId` survives) but
the table is dropped and recreated (DROP TABLE IF EXISTS sensor_data),
so `table` is emptied.  A construction error rejects. -/
def initializeDuckDB (env : Env) (st : ServiceState) : Except String ServiceState :=
  match env.duckdbInitError with
  | some e => .error e
  | none =>
      .ok { st with db := some st.nextHandle, nextHandle := st.nextHandle + 1,
                    isAvailable := true, dbType := some .duckdb, table := [] }

/-- Body of `initializeSQLite` plus `createSQLiteTables`: opens a fresh
handle on the sqlite file and creates the table IF NOT EXISTS, so existing
rows survive. -/
def initializeSQLite (env : Env) (st : ServiceState) : Except String ServiceState :=
  match env.sqliteInitError with
  | some e => .error e
  | none =>
      .ok { st with db := some st.nextHandle, nextHandle := st.nextHandle + 1,
                    isAvailable := true, dbType := some .sqlite }

/-- Body of `initializeFallback`: ensures the directory exists and resets
availability; it never fails in scope (filesystem permission errors are
fatal and out of scope by the spec). -/
def initializeFallback (st : ServiceState) : ServiceState :=
  { st with isAvailable := false }

/-- Body of the `try` block of `initialize`: probe duckdb, then sqlite,
then fall back to flat files, propagating construction errors. -/
def initializeBody (env : Env) (st : ServiceState) :
    Except String (ServiceState × InitResult) :=
  if env.duckdbAvailable then
    match initializeDuckDB env st with
    | .error e => .error e
    | .ok st' =>
        .ok (st', { success := true, mode := "duckdb", dbPath := st.paths.duckdbPath,
                    error := none })
  else if env.sqliteAvailable then
    match initializeSQLite env st with
    | .error e => .error e
    | .ok st' =>
        .ok (st', { success := true, mode := "sqlite", dbPath := st.paths.sqlitePath,
                    error := none })
  else
    .ok (initializeFallback st,
         { success := true, mode := "fallback", dbPath := st.paths.fallbackPath,
           error := none })

/-- DuckDBService.initialize (named `initializeService` here because
`initialize` is a Lean keyword): the `try` body with its top-level
`catch`, which catches any construction error, initializes the flat-file
fallback, and resolves successfully with the error message attached. -/
def initializeService (env : Env) (st : ServiceState) : ServiceState × InitResult :=
  match initializeBody env st with
  | .ok r => r
  | .error e =>
      (initializeFallback st,
       { success := true, mode := "fallback", dbPath := st.paths.fallbackPath,
         error := some e })

/-- Result object of `insertData`; `filepath` is present only on the
flat-file path. -/
structure InsertResult where
  success : Bool
  recordCount : Nat
  filepath : Option String
  deriving Repr, DecidableEq

/-- Parameter row built by `insertDataSQLite` for one record: fields are
bound directly (no truthiness coercion), the flattened `record.field` is
ignored (only `record.location?.field` is bound), and only
`processed_timestamp` and `quality_score` receive `||` defaults. -/
def sqliteRow (now : String) (rid : Nat) (r : SensorReading) : StoredRow :=
  { id := rid,
    sensor_id := r.sensor_id,
    timestamp := r.timestamp,
    reading_type := r.reading_type,
    value := r.value,
    unit := r.unit,
    field := r.location_field,
    latitude := r.location_latitude,
    longitude := r.location_longitude,
    battery_level := r.battery_level,
    signal_strength := r.signal_strength,
    data_quality := r.data_quality,
    processed_timestamp := jsOrStr r.processed_timestamp (some now),
    quality_score := jsOrInt r.quality_score (some 100) }

/-- Parameter row built by `insertDataDuckDB` for one record: every field
goes through a JS `||` coercion, so falsy values (0, "") collapse to the
default; `field` falls back from `location?.field` to the flattened
`record.field`; a missing `data_quality` becomes "unknown". -/
def duckRow (now : String) (rid : Nat) (r : SensorReading) : StoredRow :=
  { id := rid,
    sensor_id := jsOrStr r.sensor_id none,
    timestamp := jsOrStr r.timestamp (some now),
    reading_type := jsOrStr r.reading_type none,
    value := jsOrRat r.value none,
    unit := jsOrStr r.unit none,
    field := jsOrStr r.location_field (jsOrStr r.field none),
    latitude := jsOrRat r.location_latitude none,
    longitude := jsOrRat r.location_longitude none,
    battery_level := jsOrInt r.battery_level none,
    signal_strength := jsOrInt r.signal_strength none,
    data_quality := jsOrStr r.data_quality (some "unknown"),
    processed_timestamp := jsOrStr r.processed_timestamp (some now),
    quality_score := jsOrInt r.quality_score (some 100) }

/-- Backend insert loop: one INSERT per record, ids assigned from the
monotone counter (sqlite AUTOINCREMENT / duckdb sequence). -/
def insertRows (mkRow : Nat → SensorReading → StoredRow) :
    ServiceState → List SensorReading → ServiceState
  | st, [] => st
  | st, r :: rs =>
      insertRows mkRow
        { st with table := st.table ++ [mkRow st.nextId r], nextId := st.nextId + 1 } rs

/-- DuckDBService.insertDataSQLite. -/
def insertDataSQLite (env : Env) (st : ServiceState) (records : List SensorReading) :
    ServiceState × InsertResult :=
  (insertRows (sqliteRow env.now) st records,
   { success := true, recordCount := records.length, filepath := none })

/-- DuckDBService.insertDataDuckDB. -/
def insertDataDuckDB (env : Env) (st : ServiceState) (records : List SensorReading) :
    ServiceState × InsertResult :=
  (insertRows (duckRow env.now) st records,
   { success := true, recordCount := records.length, filepath := none })

/-- Name of the JSON file one flat-file write produces.  The source
sanitises the ISO timestamp by replacing colon and dot characters with
dashes before embedding it; that character renaming is elided here (it is
injective on fixed-format ISO timestamps and never observed by a claim). -/
def fallbackFileName (now : String) : String := "processed_data_" ++ now ++ ".json"

/-- DuckDBService.insertDataFallback: writes the record batch verbatim as
one new JSON file in the processed-data directory. -/
def insertDataFallback (env : Env) (st : ServiceState) (records : List SensorReading) :
    ServiceState × InsertResult :=
  ({ st with files := st.files ++ [⟨fallbackFileName env.now, some records⟩] },
   { success := true, recordCount := records.length,
     filepath := some (st.paths.fallbackPath ++ "/" ++ fallbackFileName env.now) })

/-- DuckDBService.insertData: a scalar argument is wrapped into a
singleton list by the source before this dispatch, so the model takes the
list directly.  When the service is not available the flat-file path is
taken; an available service with an unknown dbType returns `undefined` in
the source, modelled as an error (the state is unreachable). -/
def insertData (env : Env) (st : ServiceState) (records : List SensorReading) :
    Except String (ServiceState × InsertResult) :=
  if st.isAvailable = false then .ok (insertDataFallback env st records)
  else
    match st.dbType with
    | some .sqlite => .ok (insertDataSQLite env st records)
    | some .duckdb => .ok (insertDataDuckDB env st records)
    | _ => .error "undefined result"

/-- SQL `column >= bound`: false (UNKNOWN) when either side is NULL. -/
def sqlGe (col bound : Option String) : Bool :=
  match col, bound with
  | some t, some s => strLe s t
  | _, _ => false

/-- SQL `column <= bound`: false (UNKNOWN) when either side is NULL. -/
def sqlLe (col bound : Option String) : Bool :=
  match col, bound with
  | some t, some s => strLe t s
  | _, _ => false

/-- JS `new Date(a) < new Date(b)`: false when either date is missing
(an Invalid Date comparison). -/
def jsDateLt (a b : Option String) : Bool :=
  match a, b with
  | some x, some y => strLt x y
  | _, _ => false

/-- SQL WHERE predicate built by `queryDataDuckDB` / `queryDataSQLite`:
each filter clause is appended only when the filter value is truthy, and a
NULL column never satisfies an equality or range comparison (SQL
three-valued logic). -/
def rowMatches (f : Filters) (row : StoredRow) : Bool :=
  (!truthyStr f.sensor_id || row.sensor_id == f.sensor_id) &&
  (!truthyStr f.reading_type || row.reading_type == f.reading_type) &&
  (!truthyStr f.startDate || sqlGe row.timestamp f.startDate) &&
  (!truthyStr f.endDate || sqlLe row.timestamp f.endDate) &&
  (!truthyStr f.field || row.field == f.field)

/-- Insertion step of the descending-by-key sort. -/
def insertDescBy {α : Type} (key : α → String) (x : α) : List α → List α
  | [] => [x]
  | y :: ys => if strLe (key y) (key x) then x :: y :: ys else y :: insertDescBy key x ys

/-- Deterministic descending sort modelling both the SQL
`ORDER BY timestamp DESC` and the JS `sort` by date; a missing timestamp
sorts as the empty string. -/
def sortDescBy {α : Type} (key : α → String) : List α → List α
  | [] => []
  | x :: xs => insertDescBy key x (sortDescBy key xs)

/-- Result payload of a query: database backends return table rows, the
flat-file backend returns the raw JSON records. -/
inductive QueryPayload where
  | rows (rs : List StoredRow)
  | raw (rs : List SensorReading)
  deriving Repr, DecidableEq

/-- Result object of `queryData`. -/
structure QueryResult where
  success : Bool
  payload : QueryPayload
  source : String
  deriving Repr, DecidableEq

/-- DuckDBService.queryDataDuckDB: WHERE, ORDER BY timestamp DESC, LIMIT
(only when the limit value is truthy), then the BigInt-narrowing pass
(the identity in this model, where counts are already `Nat`). -/
def queryDataDuckDB (st : ServiceState) (f : Filters) : QueryResult :=
  let sorted := sortDescBy (fun row => row.timestamp.getD "") (st.table.filter (rowMatches f))
  let limited := if truthyNat f.limit then sorted.take (f.limit.getD 0) else sorted
  { success := true, payload := .rows limited, source := "duckdb" }

/-- DuckDBService.queryDataSQLite: same translated query, anonymous
placeholders, no narrowing pass. -/
def queryDataSQLite (st : ServiceState) (f : Filters) : QueryResult :=
  let sorted := sortDescBy (fun row => row.timestamp.getD "") (st.table.filter (rowMatches f))
  let limited := if truthyNat f.limit then sorted.take (f.limit.getD 0) else sorted
  { success := true, payload := .rows limited, source := "sqlite" }

/-- Test for the `.json` filename filter of the fallback directory scan,
expressed over character lists. -/
def hasJsonSuffix (s : String) : Bool := List.isSuffixOf ".json".data s.data

/-- Directory scan of `queryDataFallback`: keep `.json` files, read and
parse each inside a per-file try/catch, skipping (with a logged warning)
any file whose read or parse fails, concatenating in directory order. -/
def readAllFallback : List FallbackFile → List SensorReading
  | [] => []
  | f :: fs =>
      if hasJsonSuffix f.name then
        match f.content with
        | some data => data ++ readAllFallback fs
        | none => readAllFallback fs
      else readAllFallback fs

/-- In-memory predicate filter of `queryDataFallback`: a record is dropped
when a truthy filter disagrees with it; a record without a timestamp is
never dropped by a date filter (the JS `new Date(undefined)` comparison is
always false). -/
def readingMatches (f : Filters) (r : SensorReading) : Bool :=
  !(truthyStr f.sensor_id && r.sensor_id != f.sensor_id) &&
  !(truthyStr f.reading_type && r.reading_type != f.reading_type) &&
  !(truthyStr f.field && r.location_field != f.field) &&
  !(truthyStr f.startDate && jsDateLt r.timestamp f.startDate) &&
  !(truthyStr f.endDate && jsDateLt f.endDate r.timestamp)

/-- Record list produced by the flat-file query pipeline: scan, filter,
sort by timestamp descending, then slice to the limit when truthy. -/
def fallbackQueryRecords (st : ServiceState) (f : Filters) : List SensorReading :=
  let filtered := (readAllFallback st.files).filter (readingMatches f)
  let sorted := sortDescBy (fun r => r.timestamp.getD "") filtered
  if truthyNat f.limit then sorted.take (f.limit.getD 0) else sorted

/-- DuckDBService.queryDataFallback. -/
def queryDataFallback (st : ServiceState) (f : Filters) : QueryResult :=
  { success := true, payload := .raw (fallbackQueryRecords st f), source := "fallback" }

/-- DuckDBService.queryData dispatch. -/
def queryData (st : ServiceState) (f : Filters) : Except String QueryResult :=
  if st.isAvailable = false then .ok (queryDataFallback st f)
  else
    match st.dbType with
    | some .sqlite => .ok (queryDataSQLite st f)
    | some .duckdb => .ok (queryDataDuckDB st f)
    | _ => .error "undefined result"

/-- Shape of the per-type breakdown in a stats result: the database
backends return a JSON array of `{reading_type, count}` rows (the GROUP BY
result, `reading_type` possibly NULL), while the flat-file backend builds
a plain JS object keyed by reading type. -/
inductive ByType where
  | arr (l : List (Option String × Nat))
  | obj (l : List (String × Nat))
  deriving Repr, DecidableEq

/-- Result object of `getStats`. -/
structure StatsResult where
  success : Bool
  source : String
  total : Nat
  byType : ByType
  latestTimestamp : Option String
  deriving Repr, DecidableEq

/-- Increment the count of a key in an association list, appending a new
entry on first sight. -/
def bumpCountOpt : List (Option String × Nat) → Option String → List (Option String × Nat)
  | [], k => [(k, 1)]
  | (k', c) :: rest, k =>
      if k' = k then (k', c + 1) :: rest else (k', c) :: bumpCountOpt rest k

/-- GROUP BY reading_type over the table, in first-appearance order (the
SQL standard leaves the group order unspecified; first appearance is the
deterministic choice of this model). -/
def groupByType (rows : List StoredRow) : List (Option String × Nat) :=
  rows.foldl (fun acc row => bumpCountOpt acc row.reading_type) []

/-- SQL `MAX(timestamp)`: NULL timestamps are ignored; the empty table
yields NULL. -/
def maxTimestamp (rows : List StoredRow) : Option String :=
  rows.foldl
    (fun acc row =>
      match row.timestamp, acc with
      | none, a => a
      | some t, none => some t
      | some t, some a => if strLt a t then some t else some a)
    none

/-- DuckDBService.getStatsDuckDB: three aggregate queries plus the
BigInt-narrowing pass (identity here). -/
def getStatsDuckDB (st : ServiceState) : StatsResult :=
  { success := true, source := "duckdb", total := st.table.length,
    byType := .arr (groupByType st.table), latestTimestamp := maxTimestamp st.table }

/-- DuckDBService.getStatsSQLite: the same three aggregates. -/
def getStatsSQLite (st : ServiceState) : StatsResult :=
  { success := true, source := "sqlite", total := st.table.length,
    byType := .arr (groupByType st.table), latestTimestamp := maxTimestamp st.table }

/-- JS object-key coercion: indexing an object with `undefined` uses the
string key "undefined". -/
def jsKey : Option String → String
  | some s => s
  | none => "undefined"

/-- Increment the count under a string key in an association list. -/
def bumpCountStr : List (String × Nat) → String → List (String × Nat)
  | [], k => [(k, 1)]
  | (k', c) :: rest, k =>
      if k' = k then (k', c + 1) :: rest else (k', c) :: bumpCountStr rest k

/-- Per-type tally of `getStatsFallback`: a plain object built with
`stats.byType[type] = (stats.byType[type] || 0) + 1`. -/
def fallbackByType (records : List SensorReading) : List (String × Nat) :=
  records.foldl (fun acc r => bumpCountStr acc (jsKey r.reading_type)) []

/-- Latest-timestamp scan of `getStatsFallback`: the accumulator is
replaced when it is falsy or when the record timestamp compares greater
(a record without a timestamp never wins a date comparison, but does
overwrite a falsy accumulator, exactly as the source does). -/
def fallbackLatest (records : List SensorReading) : Option String :=
  records.foldl
    (fun acc r =>
      if truthyStr acc = false then r.timestamp
      else
        match r.timestamp, acc with
        | some t, some a => if strLt a t then some t else acc
        | _, _ => acc)
    none

/-- DuckDBService.getStatsFallback: full scan via the fallback query
pipeline, then an in-memory tally. -/
def getStatsFallback (st : ServiceState) : StatsResult :=
  let data := fallbackQueryRecords st {}
  { success := true, source := "fallback", total := data.length,
    byType := .obj (fallbackByType data), latestTimestamp := fallbackLatest data }

/-- DuckDBService.getStats dispatch. -/
def getStats (st : ServiceState) : Except String StatsResult :=
  if st.isAvailable = false then .ok (getStatsFallback st)
  else
    match st.dbType with
    | some .sqlite => .ok (getStatsSQLite st)
    | some .duckdb => .ok (getStatsDuckDB st)
    | _ => .error "undefined result"

/-- Value bound for one column of an UPDATE SET clause. -/
inductive FieldVal where
  | str (v : String)
  | num (v : Rat)
  | int (v : Int)
  | null
  deriving Repr, DecidableEq

/-- Columns of the `sensor_data` table; a SET clause naming any other
identifier is a SQL error. -/
def validColumn (k : String) : Bool :=
  ["id", "sensor_id", "timestamp", "reading_type", "value", "unit", "field",
   "latitude", "longitude", "battery_level", "signal_strength", "data_quality",
   "processed_timestamp", "quality_score", "created_at"].contains k

/-- Interpretation of one `column = value` assignment on a row; type
coercions a real engine would perform on mismatched value kinds are not
needed by any claim and a mismatched assignment leaves the column
unchanged. -/
def setColumn (row : StoredRow) (k : String) (v : FieldVal) : StoredRow :=
  if k = "sensor_id" then
    { row with sensor_id := match v with | .str s => some s | _ => row.sensor_id }
  else if k = "timestamp" then
    { row with timestamp := match v with | .str s => some s | .null => none | _ => row.timestamp }
  else if k = "reading_type" then
    { row with reading_type := match v with | .str s => some s | .null => none | _ => row.reading_type }
  else if k = "value" then
    { row with value := match v with | .num q => some q | .null => none | _ => row.value }
  else if k = "unit" then
    { row with unit := match v with | .str s => some s | .null => none | _ => row.unit }
  else if k = "field" then
    { row with field := match v with | .str s => some s | .null => none | _ => row.field }
  else if k = "latitude" then
    { row with latitude := match v with | .num q => some q | .null => none | _ => row.latitude }
  else if k = "longitude" then
    { row with longitude := match v with | .num q => some q | .null => none | _ => row.longitude }
  else if k = "battery_level" then
    { row with battery_level := match v with | .int n => some n | .null => none | _ => row.battery_level }
  else if k = "signal_strength" then
    { row with signal_strength := match v with | .int n => some n | .null => none | _ => row.signal_strength }
  else if k = "data_quality" then
    { row with data_quality := match v with | .str s => some s | .null => none | _ => row.data_quality }
  else if k = "processed_timestamp" then
    { row with processed_timestamp := match v with | .str s => some s | .null => none | _ => row.processed_timestamp }
  else if k = "quality_score" then
    { row with quality_score := match v with | .int n => some n | .null => none | _ => row.quality_score }
  else row

/-- Apply a whole SET clause to a row, left to right. -/
def applySet (row : StoredRow) : List (String × FieldVal) → StoredRow
  | [] => row
  | (k, v) :: rest => applySet (setColumn row k v) rest

/-- Result object of `updateData`; the database paths carry `updated`, the
flat-file path carries `message` instead. -/
structure UpdateResult where
  success : Bool
  updated : Option Nat
  message : Option String
  id : Nat
  deriving Repr, DecidableEq

/-- Result object of `deleteData`. -/
structure DeleteResult where
  success : Bool
  deleted : Option Nat
  message : Option String
  id : Nat
  deriving Repr, DecidableEq

/-- DuckDBService.updateDataDuckDB: an existence check runs first and a
missing id returns `updated: 0` before any SET clause is built, so even a
malformed update object cannot fail there; on the exists path an empty or
invalid SET clause is a SQL error, and a successful UPDATE reports
`result.changes || 1`, which is 1 because the duckdb driver callback does
not populate `changes`. -/
def updateDataDuckDB (st : ServiceState) (rid : Nat) (updates : List (String × FieldVal)) :
    Except String (ServiceState × UpdateResult) :=
  if st.table.any (fun row => row.id = rid) = false then
    .ok (st, { success := true, updated := some 0, message := none, id := rid })
  else if updates = [] then .error "Parser Error: syntax error in UPDATE"
  else if updates.all (fun kv => validColumn kv.1) = false then
    .error "Binder Error: no such column"
  else
    .ok ({ st with table := st.table.map (fun row => if row.id = rid then applySet row updates else row) },
         { success := true, updated := some 1, message := none, id := rid })

/-- DuckDBService.updateDataSQLite: no existence check; the UPDATE runs
directly and `result.changes` (the number of rows whose id matched) is
reported, 0 for a missing id.  An empty or invalid SET clause is a SQL
error. -/
def updateDataSQLite (st : ServiceState) (rid : Nat) (updates : List (String × FieldVal)) :
    Except String (ServiceState × UpdateResult) :=
  if updates = [] then .error "SqliteError: near WHERE: syntax error"
  else if updates.all (fun kv => validColumn kv.1) = false then
    .error "SqliteError: no such column"
  else
    .ok ({ st with table := st.table.map (fun row => if row.id = rid then applySet row updates else row) },
         { success := true,
           updated := some (st.table.filter (fun row => row.id = rid)).length,
           message := none, id := rid })

/-- DuckDBService.updateDataFallback: structured unsupported-capability
result, never a throw. -/
def updateDataFallback (st : ServiceState) (rid : Nat) : ServiceState × UpdateResult :=
  (st, { success := false, updated := none,
         message := some "Update not supported in fallback mode", id := rid })

/-- DuckDBService.updateData dispatch. -/
def updateData (st : ServiceState) (rid : Nat) (updates : List (String × FieldVal)) :
    Except String (ServiceState × UpdateResult) :=
  if st.isAvailable = false then .ok (updateDataFallback st rid)
  else
    match st.dbType with
    | some .sqlite => updateDataSQLite st rid updates
    | some .duckdb => updateDataDuckDB st rid updates
    | _ => .error "undefined result"

/-- DuckDBService.deleteDataDuckDB: existence check first, `deleted: 0`
for a missing id; on the exists path `result.changes || 1` reports 1. -/
def deleteDataDuckDB (st : ServiceState) (rid : Nat) :
    Except String (ServiceState × DeleteResult) :=
  if st.table.any (fun row => row.id = rid) = false then
    .ok (st, { success := true, deleted := some 0, message := none, id := rid })
  else
    .ok ({ st with table := st.table.filter (fun row => row.id ≠ rid) },
         { success := true, deleted := some 1, message := none, id := rid })

/-- DuckDBService.deleteDataSQLite: the DELETE runs directly and
`result.changes` counts the removed rows, 0 for a missing id. -/
def deleteDataSQLite (st : ServiceState) (rid : Nat) :
    Except String (ServiceState × DeleteResult) :=
  .ok ({ st with table := st.table.filter (fun row => row.id ≠ rid) },
       { success := true,
         deleted := some (st.table.filter (fun row => row.id = rid)).length,
         message := none, id := rid })

/-- DuckDBService.deleteDataFallback. -/
def deleteDataFallback (st : ServiceState) (rid : Nat) : ServiceState × DeleteResult :=
  (st, { success := false, deleted := none,
         message := some "Delete not supported in fallback mode", id := rid })

/-- DuckDBService.deleteData dispatch. -/
def deleteData (st : ServiceState) (rid : Nat) :
    Except String (ServiceState × DeleteResult) :=
  if st.isAvailable = false then .ok (deleteDataFallback st rid)
  else
    match st.dbType with
    | some .sqlite => deleteDataSQLite st rid
    | some .duckdb => deleteDataDuckDB st rid
    | _ => .error "undefined result"

/-- DuckDBService.close: with an open handle on a database backend, the
native handle is released, `db` nulled and `isAvailable` reset; with no
handle (or an unknown dbType) nothing happens, so closing twice is a
no-op. -/
def closeService (st : ServiceState) : ServiceState :=
  match st.db with
  | none => st
  | some _ =>
      match st.dbType with
      | some .duckdb => { st with db := none, isAvailable := false }
      | some .sqlite => { st with db := none, isAvailable := false }
      | _ => st

/-- Configuration object accepted by the DuckDBService constructor; the
numeric `testId` / `Date.now()` values are modelled as their decimal
string forms. -/
structure CtorConfig where
  testId : Option String := none
  duckdbPath : Option String := none
  sqlitePath : Option String := none
  processedData : Option String := none
  deriving Repr, DecidableEq

/-- Process environment the constructor reads: whether NODE_ENV is
"test", the `Date.now()` value, and the working directory. -/
structure CtorEnv where
  nodeEnvTest : Bool
  nowMillis : String
  cwd : String
  deriving Repr, DecidableEq

/-- path.join on two segments. -/
def pathJoin (a b : String) : String := a ++ "/" ++ b

/-- JS `x || d` producing a plain string. -/
def jsStrOr (x : Option String) (d : String) : String :=
  match x with
  | some s => if s = "" then d else s
  | none => d

/-- DuckDBService constructor path computation: in a test environment the
database files default to `test_<testId>.<ext>` under data/database (with
`testId` defaulting to `Date.now()`), but the flat-file directory defaults
to the shared `data/test-processed` with no testId suffix; outside test
mode the fixed production paths are used and `testId` is never read. -/
def ctorPaths (env : CtorEnv) (cfg : CtorConfig) : ServicePaths :=
  let dataRoot := pathJoin env.cwd "data"
  if env.nodeEnvTest then
    let testId := jsStrOr cfg.testId env.nowMillis
    { duckdbPath := jsStrOr cfg.duckdbPath
        (pathJoin (pathJoin dataRoot "database") ("test_" ++ testId ++ ".duckdb")),
      sqlitePath := jsStrOr cfg.sqlitePath
        (pathJoin (pathJoin dataRoot "database") ("test_" ++ testId ++ ".sqlite")),
      fallbackPath := jsStrOr cfg.processedData (pathJoin dataRoot "test-processed") }
  else
    { duckdbPath := jsStrOr cfg.duckdbPath
        (pathJoin (pathJoin dataRoot "database") "agricultural_data.duckdb"),
      sqlitePath := jsStrOr cfg.sqlitePath
        (pathJoin (pathJoin dataRoot "database") "agricultural_data.sqlite"),
      fallbackPath := jsStrOr cfg.processedData (pathJoin dataRoot "processed") }

/-- DuckDBService.createTestInstance: builds a config whose processed-data
directory is suffixed with the testId, runs the constructor, then
overrides both database paths with testId-suffixed names. -/
def createTestInstance (env : CtorEnv) (testId : String) : ServicePaths :=
  let base := ctorPaths env
    { processedData := some (pathJoin (pathJoin env.cwd "data") ("test-processed-" ++ testId)) }
  let dataRoot := pathJoin env.cwd "data"
  { base with
    duckdbPath := pathJoin (pathJoin dataRoot "database")
      ("agricultural_data_test_" ++ testId ++ ".duckdb"),
    sqlitePath := pathJoin (pathJoin dataRoot "database")
      ("agricultural_data_test_" ++ testId ++ ".sqlite") }

/-!
Cooperative-interleaving model of `duckDBSingleton.getInstance`.

The runtime is single-threaded with suspension only at `await`; each
logical caller of `getInstance` is a task whose execution is split at its
suspension points into atomic segments.  The decisive fact mirrored from
the source is that `initializeInstance()`, being an async function, runs
synchronously up to its first `await`: the assignment
`this.instance = new DuckDBService(config)` happens inside the same
atomic segment as the caller writing `this.isInitializing = true`,
before `StorageService.initialize()` is awaited.

The error path of `initializeInstance` (where `initialize()` rejects) is
not modelled: `initialize()` never rejects (see C3), so the catch block
resetting `this.instance` is dead in every environment in scope.
-/

/-- Execution point of one `getInstance` caller. -/
inductive TaskState where
  | start
  | awaitingInit
  | awaitingOwnInit
  | done (v : Nat)
  deriving Repr, DecidableEq

/-- State of the registry plus its callers.  `inst` is `this.instance`
(instance references are numbered by `nextInstanceId`), `initCalls`
counts invocations of `StorageService.initialize()`, `initInFlight` and
`initResolved` track whether that underlying initialization has started
and resolved. -/
structure SysState where
  tasks : List TaskState
  inst : Option Nat
  isInitializing : Bool
  initCalls : Nat
  nextInstanceId : Nat
  initInFlight : Bool
  initResolved : Bool
  deriving Repr, DecidableEq

/-- Scheduler events: `call i` runs the synchronous entry segment of task
i's `getInstance`; `resolveInit` is the underlying
`StorageService.initialize()` resolving; `resume i` wakes a task whose
awaited promise has resolved. -/
inductive Ev where
  | call (i : Nat)
  | resolveInit
  | resume (i : Nat)
  deriving Repr, DecidableEq

/-- One scheduler step; an event that is not enabled stutters. -/
def stepSys (s : SysState) (e : Ev) : SysState :=
  match e with
  | .call i =>
      match s.tasks[i]? with
      | some .start =>
          (match s.inst with
           | some v => { s with tasks := s.tasks.set i (.done v) }
           | none =>
               if s.isInitializing then
                 { s with tasks := s.tasks.set i .awaitingInit }
               else
                 { s with tasks := s.tasks.set i .awaitingOwnInit,
                          isInitializing := true,
                          inst := some s.nextInstanceId,
                          nextInstanceId := s.nextInstanceId + 1,
                          initCalls := s.initCalls + 1,
                          initInFlight := true })
      | _ => s
  | .resolveInit =>
      if s.initInFlight && !s.initResolved then { s with initResolved := true } else s
  | .resume i =>
      if s.initResolved then
        match s.tasks[i]?, s.inst with
        | some .awaitingOwnInit, some v =>
            { s with tasks := s.tasks.set i (.done v), isInitializing := false }
        | some .awaitingInit, some v =>
            { s with tasks := s.tasks.set i (.done v) }
        | _, _ => s
      else s

/-- Run a whole schedule. -/
def runSys (s : SysState) : List Ev → SysState
  | [] => s
  | e :: es => runSys (stepSys s e) es

/-- Registry and N first-time callers, before any call. -/
def initialSys (n : Nat) : SysState :=
  { tasks := List.replicate n .start, inst := none, isInitializing := false,
    initCalls := 0, nextInstanceId := 0, initInFlight := false,
    initResolved := false }

/-- Normalisation of one optional-string filter value: a falsy value is
the same as an absent one. -/
def normStrFilter (x : Option String) : Option String :=
  if truthyStr x then x else none

/-- Normalisation of the limit filter value. -/
def normNatFilter (x : Option Nat) : Option Nat :=
  if truthyNat x then x else none

/-- Filters with every falsy entry replaced by an absent one. -/
def normalizeFilters (f : Filters) : Filters :=
  { sensor_id := normStrFilter f.sensor_id,
    reading_type := normStrFilter f.reading_type,
    startDate := normStrFilter f.startDate,
    endDate := normStrFilter f.endDate,
    field := normStrFilter f.field,
    limit := normNatFilter f.limit }

/-- Discriminator: is this per-type breakdown a JSON array. -/
def ByType.isArr : ByType → Bool
  | .arr _ => true
  | .obj _ => false

/-!
Concrete fixtures used by witnesses and counterexamples.
-/

/-- Fixed backing paths for the concrete fixtures. -/
def testPaths : ServicePaths :=
  { duckdbPath := "/app/data/database/test_1.duckdb",
    sqlitePath := "/app/data/database/test_1.sqlite",
    fallbackPath := "/app/data/test-processed" }

/-- Environment where the duckdb probe succeeds. -/
def envDuck : Env :=
  { duckdbAvailable := true, sqliteAvailable := true,
    duckdbInitError := none, sqliteInitError := none,
    now := "2025-06-01T10:00:00Z" }

/-- Environment where only the sqlite probe succeeds. -/
def envSqliteOnly : Env := { envDuck with duckdbAvailable := false }

/-- Environment where both probes fail. -/
def envNoDb : Env := { envDuck with duckdbAvailable := false, sqliteAvailable := false }

/-- Fresh service over the fixture paths. -/
def st0 : ServiceState := freshService testPaths

/-- Service after a first initialize in the duckdb environment. -/
def stDuckReady : ServiceState := (initializeService envDuck st0).1

/-- Service after a first initialize in the sqlite-only environment. -/
def stSqliteReady : ServiceState := (initializeService envSqliteOnly st0).1

/-- Service after a first initialize with both probes failing. -/
def stFallbackReady : ServiceState := (initializeService envNoDb st0).1

/-- Valid reading whose numeric value is 0 (the edge case named by the
round-trip claim). -/
def rZero : SensorReading :=
  { emptyReading with
    sensor_id := some "S1", timestamp := some "2025-01-01T00:00:00Z",
    reading_type := some "temperature", value := some 0,
    unit := some "C", data_quality := some "good" }

/-- Duckdb-backed service after inserting `rZero`. -/
def stAfterZeroInsert : ServiceState :=
  match insertData envDuck stDuckReady [rZero] with
  | .ok (st, _) => st
  | .error _ => stDuckReady

/-- Reading all of whose supplied attributes are truthy, with the
location attributes nested. -/
def rTruthy : SensorReading :=
  { sensor_id := some "S1", timestamp := some "2025-01-01T00:00:00Z",
    reading_type := some "temperature", value := some (25 : Rat),
    unit := some "C", location_field := some "north",
    location_latitude := some 1, location_longitude := some 2,
    field := none, battery_level := some 80, signal_strength := some (-60),
    data_quality := some "good",
    processed_timestamp := some "2025-01-01T00:00:01Z", quality_score := some 90 }

/-- Duckdb-backed service after inserting `rTruthy`. -/
def stTruthyDuck : ServiceState :=
  match insertData envDuck stDuckReady [rTruthy] with
  | .ok (st, _) => st
  | .error _ => stDuckReady

/-- Sqlite-backed service after inserting `rTruthy`. -/
def stTruthySqlite : ServiceState :=
  match insertData envSqliteOnly stSqliteReady [rTruthy] with
  | .ok (st, _) => st
  | .error _ => stSqliteReady

/-- Fallback service after inserting `rTruthy`. -/
def stTruthyFallback : ServiceState :=
  match insertData envNoDb stFallbackReady [rTruthy] with
  | .ok (st, _) => st
  | .error _ => stFallbackReady

/-- One concrete stored row (id 1). -/
def row1 : StoredRow := duckRow "2025-06-01T10:00:00Z" 1 rTruthy

/-- Duckdb-backed service holding exactly the row with id 1. -/
def stDuckWithRow : ServiceState := { stDuckReady with table := [row1], nextId := 2 }

/-- Sqlite-backed service holding exactly the row with id 1. -/
def stSqliteWithRow : ServiceState := { stSqliteReady with table := [row1], nextId := 2 }

/-- Constructor environment fixture: NODE_ENV=test. -/
def ctEnvTest : CtorEnv :=
  { nodeEnvTest := true, nowMillis := "1730000000000", cwd := "/app" }

/-- Readable flat-file fixture holding one record batch. -/
def goodFile1 : FallbackFile := ⟨"processed_data_a.json", some [rTruthy]⟩

/-- Corrupt flat-file fixture: its read or parse fails. -/
def badFile : FallbackFile := ⟨"processed_data_b.json", none⟩

/-- Second readable flat-file fixture. -/
def goodFile2 : FallbackFile := ⟨"processed_data_c.json", some [rZero]⟩

/-- Fallback service whose directory holds a corrupt file between two
readable ones. -/
def stCorrupt : ServiceState :=
  { stFallbackReady with files := [goodFile1, badFile, goodFile2] }

/-- Readings all of whose supplied attributes are truthy (nonempty
strings, nonzero numbers) with the location attributes nested: on such
readings the JS `||` defaulting of the insert paths is the identity. -/
def truthyReading (r : SensorReading) : Bool :=
  truthyStr r.sensor_id && truthyStr r.timestamp && truthyStr r.reading_type &&
  truthyRat r.value && truthyStr r.unit && truthyStr r.location_field &&
  truthyRat r.location_latitude && truthyRat r.location_longitude &&
  truthyInt r.battery_level && truthyInt r.signal_strength &&
  truthyStr r.data_quality && truthyStr r.processed_timestamp &&
  truthyInt r.quality_score

/-- Field-by-field comparison of a returned row against the inserted
reading over every queryable field, with only the backend-assigned id
excluded; the row's `field` column is compared against the nested
`location.field` attribute. -/
def rowFieldsEqual (row : StoredRow) (r : SensorReading) : Bool :=
  row.sensor_id == r.sensor_id && row.timestamp == r.timestamp &&
  row.reading_type == r.reading_type && row.value == r.value &&
  row.unit == r.unit && row.field == r.location_field &&
  row.latitude == r.location_latitude && row.longitude == r.location_longitude &&
  row.battery_level == r.battery_level && row.signal_strength == r.signal_strength &&
  row.data_quality == r.data_quality &&
  row.processed_timestamp == r.processed_timestamp &&
  row.quality_score == r.quality_score

/-!
Claim theorems.
-/

/-- C3: `initialize()` never rejects: in every environment it resolves
with success; with both probes failing it selects the flat-file backend
(mode "fallback"); and when a backend construction step throws, the error
is caught, the flat-file backend is selected, and the triggering error is
attached to the result instead of being rethrown. -/
theorem C3_initialize_never_rejects (env : Env) (st : ServiceState) :
    (initializeService env st).2.success = true
    ∧ (env.duckdbAvailable = false → env.sqliteAvailable = false →
        (initializeService env st).2.mode = "fallback"
        ∧ (initializeService env st).1.isAvailable = false)
    ∧ (∀ e, env.duckdbAvailable = true → env.duckdbInitError = some e →
        (initializeService env st).2.mode = "fallback"
        ∧ (initializeService env st).2.error = some e)
    ∧ (∀ e, env.duckdbAvailable = false → env.sqliteAvailable = true →
        env.sqliteInitError = some e →
        (initializeService env st).2.mode = "fallback"
        ∧ (initializeService env st).2.error = some e) := by
  rcases env with ⟨da, sa, de, se, now⟩
  cases da <;> cases sa <;> cases de <;> cases se <;>
    simp [initializeService, initializeBody, initializeDuckDB, initializeSQLite,
          initializeFallback]

/-- Witness for C3: in the concrete environment where both probes fail,
initialization succeeds into flat-file mode. -/
theorem C3_witness :
    (initializeService envNoDb st0).2.mode = "fallback"
    ∧ (initializeService envNoDb st0).1.isAvailable = false :=
  (C3_initialize_never_rejects envNoDb st0).2.1 rfl rfl

/-- C2 counterexample: a duckdb-backed service holding one stored record
loses that record (and gets a fresh connection handle) when `initialize()`
is called a second time, because the probe cycle re-runs and
`createDuckDBTables` drops and recreates the table — the second call is
not a no-op returning cached state. -/
theorem C2_counterexample :
    stAfterZeroInsert.table ≠ []
    ∧ (initializeService envDuck stAfterZeroInsert).1.table = []
    ∧ (initializeService envDuck stAfterZeroInsert).1.db ≠ stAfterZeroInsert.db
    ∧ (initializeService envDuck stAfterZeroInsert).2.mode = "duckdb" := by
  decide

/-- C2 amended: a second `initialize()` on a Ready service is not a
no-op: it re-runs the full probe cycle and opens a fresh connection
handle; on the duckdb backend the `sensor_data` table is dropped and
recreated, discarding every stored record, while on the sqlite backend
stored rows survive (CREATE TABLE IF NOT EXISTS); the call still resolves
successfully with the re-selected backend kind. -/
theorem C2_reinitialize_not_noop (env : Env) (st : ServiceState) :
    (env.duckdbAvailable = true → env.duckdbInitError = none →
      (initializeService env st).1.table = []
      ∧ (initializeService env st).1.db = some st.nextHandle
      ∧ (initializeService env st).1.nextHandle = st.nextHandle + 1
      ∧ (initializeService env st).2.success = true
      ∧ (initializeService env st).2.mode = "duckdb")
    ∧ (env.duckdbAvailable = false → env.sqliteAvailable = true →
        env.sqliteInitError = none →
      (initializeService env st).1.table = st.table
      ∧ (initializeService env st).1.db = some st.nextHandle
      ∧ (initializeService env st).1.nextHandle = st.nextHandle + 1
      ∧ (initializeService env st).2.success = true
      ∧ (initializeService env st).2.mode = "sqlite") := by
  rcases env with ⟨da, sa, de, se, now⟩
  cases da <;> cases sa <;> cases de <;> cases se <;>
    simp [initializeService, initializeBody, initializeDuckDB, initializeSQLite]

/-- Witness for the amended C2 at the concrete duckdb-backed state that
holds one record. -/
theorem C2_reinitialize_not_noop_witness :
    (initializeService envDuck stAfterZeroInsert).1.table = []
    ∧ (initializeService envDuck stAfterZeroInsert).1.db =
        some stAfterZeroInsert.nextHandle
    ∧ (initializeService envDuck stAfterZeroInsert).1.nextHandle =
        stAfterZeroInsert.nextHandle + 1
    ∧ (initializeService envDuck stAfterZeroInsert).2.success = true
    ∧ (initializeService envDuck stAfterZeroInsert).2.mode = "duckdb" :=
  (C2_reinitialize_not_noop envDuck stAfterZeroInsert).1 rfl rfl

/-- C5 counterexample: on an empty, freshly initialized flat-file backend
`getStats` does return total 0 and a null latest timestamp, but `byType`
is a plain object (empty map), not an array — so the claimed uniform
array shape fails on that backend. -/
theorem C5_counterexample :
    getStats stFallbackReady =
      .ok { success := true, source := "fallback", total := 0,
            byType := .obj [], latestTimestamp := none }
    ∧ (ByType.obj ([] : List (String × Nat))).isArr = false :=
  ⟨rfl, rfl⟩

/-- C5 amended: `getStats` always returns the five-key shape
`{success, source, total, byType, latestTimestamp}`; `byType` is an array
of per-type count rows on the duckdb and sqlite backends but a plain
object keyed by reading type on the flat-file backend; on an empty,
freshly initialized backend the result is total 0, an empty breakdown
(empty array or empty object respectively) and a null latest
timestamp. -/
theorem C5_stats_shape (st : ServiceState) :
    (st.isAvailable = true → st.dbType = some DbType.duckdb →
      getStats st = .ok { success := true, source := "duckdb",
                          total := st.table.length,
                          byType := .arr (groupByType st.table),
                          latestTimestamp := maxTimestamp st.table }
      ∧ (st.table = [] →
          getStats st = .ok { success := true, source := "duckdb", total := 0,
                              byType := .arr [], latestTimestamp := none }))
    ∧ (st.isAvailable = true → st.dbType = some DbType.sqlite →
      getStats st = .ok { success := true, source := "sqlite",
                          total := st.table.length,
                          byType := .arr (groupByType st.table),
                          latestTimestamp := maxTimestamp st.table }
      ∧ (st.table = [] →
          getStats st = .ok { success := true, source := "sqlite", total := 0,
                              byType := .arr [], latestTimestamp := none }))
    ∧ (st.isAvailable = false →
      (∀ r, getStats st = .ok r →
        r.success = true ∧ r.source = "fallback" ∧ r.byType.isArr = false)
      ∧ (st.files = [] →
          getStats st = .ok { success := true, source := "fallback", total := 0,
                              byType := .obj [], latestTimestamp := none })) := by
  refine ⟨fun hav hty => ?_, fun hav hty => ?_, fun hav => ?_⟩
  · constructor
    · simp [getStats, hav, hty, getStatsDuckDB]
    · intro htab
      simp [getStats, hav, hty, getStatsDuckDB, htab, groupByType, maxTimestamp]
  · constructor
    · simp [getStats, hav, hty, getStatsSQLite]
    · intro htab
      simp [getStats, hav, hty, getStatsSQLite, htab, groupByType, maxTimestamp]
  · constructor
    · intro r hr
      rw [getStats] at hr
      simp [hav] at hr
      subst hr
      simp [getStatsFallback, ByType.isArr]
    · intro hfiles
      simp [getStats, hav, getStatsFallback, fallbackQueryRecords, readAllFallback,
            hfiles, truthyNat, fallbackByType, fallbackLatest, sortDescBy]

/-- Witness for the amended C5 on concrete empty duckdb and flat-file
backends. -/
theorem C5_stats_shape_witness :
    getStats stDuckReady = .ok { success := true, source := "duckdb", total := 0,
                                 byType := .arr [], latestTimestamp := none }
    ∧ getStats stFallbackReady =
        .ok { success := true, source := "fallback", total := 0,
              byType := .obj [], latestTimestamp := none } :=
  ⟨((C5_stats_shape stDuckReady).1 rfl rfl).2 rfl,
   ((C5_stats_shape stFallbackReady).2.2 rfl).2 rfl⟩

/-- Helper: a differing middle segment between a fixed left and right
part yields different strings. -/
theorem string_mid_ne (p t t' s : String) (hne : t ≠ t') :
    p ++ (t ++ s) ≠ p ++ (t' ++ s) := by
  intro h
  apply hne
  have hd := congrArg String.data h
  rw [String.data_append, String.data_append, String.data_append,
      String.data_append] at hd
  have h2 := List.append_cancel_right (List.append_cancel_left hd)
  cases t
  cases t'
  simp_all

/-- Helper: paths that embed different middle segments between the same
surroundings are different. -/
theorem pathJoin_mid_ne (base pre t t' suf : String) (hne : t ≠ t') :
    pathJoin base (pre ++ t ++ suf) ≠ pathJoin base (pre ++ t' ++ suf) := by
  unfold pathJoin
  rw [String.append_assoc pre t suf, String.append_assoc pre t' suf,
      ← String.append_assoc (base ++ "/") pre (t ++ suf),
      ← String.append_assoc (base ++ "/") pre (t' ++ suf)]
  exact string_mid_ne (base ++ "/" ++ pre) t t' suf hne

/-- Helper: paths that end in different segments after the same leading
part are different. -/
theorem pathJoin_suffix_ne (base pre t t' : String) (hne : t ≠ t') :
    pathJoin base (pre ++ t) ≠ pathJoin base (pre ++ t') := by
  unfold pathJoin
  rw [← String.append_assoc (base ++ "/") pre t,
      ← String.append_assoc (base ++ "/") pre t']
  intro h
  apply hne
  have hd := congrArg String.data h
  rw [String.data_append, String.data_append] at hd
  have h2 := List.append_cancel_left hd
  cases t
  cases t'
  simp_all

/-- Helper: a joined path is never the empty string. -/
theorem pathJoin_ne_empty (a b : String) : pathJoin a b ≠ "" := by
  intro h
  have hd := congrArg String.data h
  rw [pathJoin] at hd
  rw [String.data_append, String.data_append] at hd
  simp at hd

/-- C7 counterexample: in a test environment, two configurations that
supply the distinct testIds "alpha" and "beta" (and no explicit paths)
produce the same flat-file processed-data directory,
`<cwd>/data/test-processed` — the flat-file backing path is not suffixed
with the testId, so the two services collide on it. -/
theorem C7_counterexample :
    (ctorPaths ctEnvTest { testId := some "alpha" }).fallbackPath
      = (ctorPaths ctEnvTest { testId := some "beta" }).fallbackPath
    ∧ ("alpha" : String) ≠ "beta"
    ∧ (ctorPaths ctEnvTest { testId := some "alpha" }).fallbackPath
      = "/app/data/test-processed" := by
  refine ⟨rfl, by decide, rfl⟩

/-- C7 amended: in a test environment the analytical and relational
database file paths are suffixed with the supplied testId (so distinct
testIds give distinct database files), but the flat-file processed-data
directory defaults to the shared `data/test-processed` directory
independent of the testId; only `createTestInstance` produces a service
whose flat-file directory (and database files) are all suffixed with the
testId and therefore disjoint across distinct testIds. -/
theorem C7_testid_paths (env : CtorEnv) (t t' : String)
    (henv : env.nodeEnvTest = true) (ht : t ≠ "") (ht' : t' ≠ "")
    (hne : t ≠ t') :
    (ctorPaths env { testId := some t }).duckdbPath
      ≠ (ctorPaths env { testId := some t' }).duckdbPath
    ∧ (ctorPaths env { testId := some t }).sqlitePath
      ≠ (ctorPaths env { testId := some t' }).sqlitePath
    ∧ (ctorPaths env { testId := some t }).fallbackPath
      = (ctorPaths env { testId := some t' }).fallbackPath
    ∧ (createTestInstance env t).duckdbPath ≠ (createTestInstance env t').duckdbPath
    ∧ (createTestInstance env t).sqlitePath ≠ (createTestInstance env t').sqlitePath
    ∧ (createTestInstance env t).fallbackPath
      ≠ (createTestInstance env t').fallbackPath := by
  have hjoin : ∀ a b : String, truthyStr (some (pathJoin a b)) = true := by
    intro a b
    simp [truthyStr, pathJoin_ne_empty a b]
  refine ⟨?_, ?_, ?_, ?_, ?_, ?_⟩
  · simp only [ctorPaths, henv, if_true, jsStrOr, ht, ht', if_neg]
    exact pathJoin_mid_ne _ "test_" t t' ".duckdb" hne
  · simp only [ctorPaths, henv, if_true, jsStrOr, ht, ht', if_neg]
    exact pathJoin_mid_ne _ "test_" t t' ".sqlite" hne
  · simp only [ctorPaths, henv, if_true, jsStrOr, ht, ht', if_neg]
  · simp only [createTestInstance]
    exact pathJoin_mid_ne _ "agricultural_data_test_" t t' ".duckdb" hne
  · simp only [createTestInstance]
    exact pathJoin_mid_ne _ "agricultural_data_test_" t t' ".sqlite" hne
  · simp only [createTestInstance, ctorPaths, henv, if_true, jsStrOr]
    rw [if_neg (by exact pathJoin_ne_empty _ _), if_neg (by exact pathJoin_ne_empty _ _)]
    exact pathJoin_suffix_ne _ "test-processed-" t t' hne

/-- Witness for the amended C7 at the concrete distinct testIds "1" and
"2". -/
theorem C7_testid_paths_witness :
    (ctorPaths ctEnvTest { testId := some "1" }).duckdbPath
      ≠ (ctorPaths ctEnvTest { testId := some "2" }).duckdbPath
    ∧ (ctorPaths ctEnvTest { testId := some "1" }).sqlitePath
      ≠ (ctorPaths ctEnvTest { testId := some "2" }).sqlitePath
    ∧ (ctorPaths ctEnvTest { testId := some "1" }).fallbackPath
      = (ctorPaths ctEnvTest { testId := some "2" }).fallbackPath
    ∧ (createTestInstance ctEnvTest "1").duckdbPath
      ≠ (createTestInstance ctEnvTest "2").duckdbPath
    ∧ (createTestInstance ctEnvTest "1").sqlitePath
      ≠ (createTestInstance ctEnvTest "2").sqlitePath
    ∧ (createTestInstance ctEnvTest "1").fallbackPath
      ≠ (createTestInstance ctEnvTest "2").fallbackPath :=
  C7_testid_paths ctEnvTest "1" "2" rfl (by decide) (by decide) (by decide)

/-- Helper: a conditional-rewrite map over a table with no matching row is
the identity. -/
theorem map_update_id (l : List StoredRow) (rid : Nat) (f : StoredRow → StoredRow)
    (h : ∀ row ∈ l, row.id ≠ rid) :
    l.map (fun row => if row.id = rid then f row else row) = l := by
  induction l with
  | nil => rfl
  | cons a as ih =>
      simp only [List.map_cons]
      rw [if_neg (h a (by simp)), ih (fun x hx => h x (by simp [hx]))]

/-- C6: not-found is not an error: with no stored row carrying the target
id, `updateData` with any non-empty well-formed partial-field object
resolves successfully with `updated: 0`, and `deleteData` resolves
successfully with `deleted: 0`, on both the duckdb and the sqlite
backend, leaving the table untouched and throwing nothing. -/
theorem C6_notfound_not_error (st : ServiceState) (rid : Nat)
    (updates : List (String × FieldVal))
    (hmiss : ∀ row ∈ st.table, row.id ≠ rid)
    (hne : updates ≠ [])
    (hcols : updates.all (fun kv => validColumn kv.1) = true) :
    (st.isAvailable = true → st.dbType = some DbType.duckdb →
      updateData st rid updates =
        .ok (st, { success := true, updated := some 0, message := none, id := rid })
      ∧ deleteData st rid =
        .ok (st, { success := true, deleted := some 0, message := none, id := rid }))
    ∧ (st.isAvailable = true → st.dbType = some DbType.sqlite →
      updateData st rid updates =
        .ok (st, { success := true, updated := some 0, message := none, id := rid })
      ∧ deleteData st rid =
        .ok (st, { success := true, deleted := some 0, message := none, id := rid })) := by
  obtain ⟨p, db, av, ty, tab, nid, nh, fls⟩ := st
  simp only at hmiss ⊢
  have hany : tab.any (fun row => row.id = rid) = false := by
    rw [List.any_eq_false]
    intro x hx
    simpa using hmiss x hx
  have hfilter0 : tab.filter (fun row => row.id = rid) = [] := by
    apply List.filter_eq_nil_iff.mpr
    intro a ha
    simpa using hmiss a ha
  have hfilterself : tab.filter (fun row => !decide (row.id = rid)) = tab := by
    apply List.filter_eq_self.mpr
    intro a ha
    simpa using hmiss a ha
  have hmap : tab.map
      (fun row => if row.id = rid then applySet row updates else row) = tab :=
    map_update_id tab rid _ hmiss
  refine ⟨fun hav hty => ?_, fun hav hty => ?_⟩ <;> subst hav <;> subst hty
  · exact ⟨by simp [updateData, updateDataDuckDB, hany],
           by simp [deleteData, deleteDataDuckDB, hany]⟩
  · exact ⟨by simp [updateData, updateDataSQLite, hne, hcols, hmap, hfilter0],
           by simp [deleteData, deleteDataSQLite, hfilterself, hfilter0]⟩

/-- Witness for C6 at concrete one-row duckdb and sqlite services and the
missing id 2. -/
theorem C6_notfound_not_error_witness :
    (updateData stDuckWithRow 2 [("value", FieldVal.num 3)] =
        .ok (stDuckWithRow, { success := true, updated := some 0, message := none, id := 2 })
      ∧ deleteData stDuckWithRow 2 =
        .ok (stDuckWithRow, { success := true, deleted := some 0, message := none, id := 2 }))
    ∧ (updateData stSqliteWithRow 2 [("value", FieldVal.num 3)] =
        .ok (stSqliteWithRow, { success := true, updated := some 0, message := none, id := 2 })
      ∧ deleteData stSqliteWithRow 2 =
        .ok (stSqliteWithRow, { success := true, deleted := some 0, message := none, id := 2 })) :=
  ⟨(C6_notfound_not_error stDuckWithRow 2 [("value", FieldVal.num 3)]
      (by decide) (by decide) (by decide)).1 rfl rfl,
   (C6_notfound_not_error stSqliteWithRow 2 [("value", FieldVal.num 3)]
      (by decide) (by decide) (by decide)).2 rfl rfl⟩

/-- C8: after `close()` on a service that was Ready on a database
backend, availability is reset rather than a closed flag raised, so
subsequent insert/query/getStats calls resolve successfully (no
rejection, no closed-service report) and silently dispatch to the
flat-file path: insert writes a new JSON file into the processed-data
directory and reports its filepath, query returns the flat-file directory
scan with source "fallback", and getStats returns the flat-file tally
with source "fallback". -/
theorem C8_after_close_fallback (env : Env) (st : ServiceState) (h : Nat)
    (hdb : st.db = some h)
    (hty : st.dbType = some DbType.duckdb ∨ st.dbType = some DbType.sqlite)
    (records : List SensorReading) (f : Filters) :
    (closeService st).isAvailable = false
    ∧ (closeService st).db = none
    ∧ insertData env (closeService st) records =
        .ok ({ closeService st with
                files := (closeService st).files
                  ++ [⟨fallbackFileName env.now, some records⟩] },
             { success := true, recordCount := records.length,
               filepath := some ((closeService st).paths.fallbackPath ++ "/"
                 ++ fallbackFileName env.now) })
    ∧ queryData (closeService st) f =
        .ok { success := true,
              payload := .raw (fallbackQueryRecords (closeService st) f),
              source := "fallback" }
    ∧ getStats (closeService st) = .ok (getStatsFallback (closeService st))
    ∧ (getStatsFallback (closeService st)).success = true
    ∧ (getStatsFallback (closeService st)).source = "fallback" := by
  obtain ⟨p, db, av, ty, tab, nid, nh, fls⟩ := st
  simp only at hdb hty ⊢
  subst hdb
  rcases hty with hty | hty <;> subst hty <;>
    simp [closeService, insertData, insertDataFallback, queryData, queryDataFallback,
          getStats, getStatsFallback]

/-- Witness for C8 at the concrete freshly initialized sqlite service. -/
theorem C8_after_close_fallback_witness :
    (closeService stSqliteReady).isAvailable = false
    ∧ (closeService stSqliteReady).db = none
    ∧ insertData envSqliteOnly (closeService stSqliteReady) [rTruthy] =
        .ok ({ closeService stSqliteReady with
                files := (closeService stSqliteReady).files
                  ++ [⟨fallbackFileName envSqliteOnly.now, some [rTruthy]⟩] },
             { success := true, recordCount := [rTruthy].length,
               filepath := some ((closeService stSqliteReady).paths.fallbackPath ++ "/"
                 ++ fallbackFileName envSqliteOnly.now) })
    ∧ queryData (closeService stSqliteReady) {} =
        .ok { success := true,
              payload := .raw (fallbackQueryRecords (closeService stSqliteReady) {}),
              source := "fallback" }
    ∧ getStats (closeService stSqliteReady) =
        .ok (getStatsFallback (closeService stSqliteReady))
    ∧ (getStatsFallback (closeService stSqliteReady)).success = true
    ∧ (getStatsFallback (closeService stSqliteReady)).source = "fallback" :=
  C8_after_close_fallback envSqliteOnly stSqliteReady 0 rfl (Or.inr rfl) [rTruthy] {}

/-- Helper: the flat-file directory scan yields the same records whether
or not an unreadable file sits in the directory. -/
theorem readAll_skip_bad (pre post : List FallbackFile) (nm : String) :
    readAllFallback (pre ++ ⟨nm, none⟩ :: post) = readAllFallback (pre ++ post) := by
  induction pre with
  | nil =>
      simp only [List.nil_append, readAllFallback]
      cases h : hasJsonSuffix nm <;> simp [h]
  | cons g gs ih =>
      cases hs : hasJsonSuffix g.name <;> cases hc : g.content <;>
        simp [readAllFallback, hs, hc, ih]

/-- C10: flat-file queries are resilient to corrupt files: with an
unreadable or unparsable file anywhere in the processed-data directory,
`queryDataFallback` still resolves successfully and returns exactly the
records of the readable files (the query over the directory with the bad
file equals the query over the directory without it); the bad file is
skipped, never causing a rejection. -/
theorem C10_fallback_query_resilient (st : ServiceState)
    (pre post : List FallbackFile) (nm : String) (f : Filters)
    (hfiles : st.files = pre ++ ⟨nm, none⟩ :: post) :
    queryDataFallback st f = queryDataFallback { st with files := pre ++ post } f
    ∧ (queryDataFallback st f).success = true
    ∧ (queryDataFallback st f).source = "fallback" := by
  refine ⟨?_, rfl, rfl⟩
  simp [queryDataFallback, fallbackQueryRecords, hfiles, readAll_skip_bad]

/-- Witness for C10 at a concrete directory holding a corrupt file
between two readable ones. -/
theorem C10_fallback_query_resilient_witness :
    queryDataFallback stCorrupt {} =
      queryDataFallback { stCorrupt with files := [goodFile1] ++ [goodFile2] } {}
    ∧ (queryDataFallback stCorrupt {}).success = true
    ∧ (queryDataFallback stCorrupt {}).source = "fallback" :=
  C10_fallback_query_resilient stCorrupt [goodFile1] [goodFile2]
    "processed_data_b.json" {} rfl

/-- Helper: an equality filter clause is unchanged by normalising a falsy
filter value to an absent one. -/
theorem clause_eq_norm (y x : Option String) :
    (!truthyStr (normStrFilter x) || y == normStrFilter x)
      = (!truthyStr x || y == x) := by
  cases x with
  | none => rfl
  | some s => by_cases h : s = "" <;> simp [normStrFilter, truthyStr, h]

/-- Helper: the lower-bound date clause is unchanged by normalisation. -/
theorem clause_ge_norm (ts x : Option String) :
    (!truthyStr (normStrFilter x) || sqlGe ts (normStrFilter x))
      = (!truthyStr x || sqlGe ts x) := by
  cases x with
  | none => rfl
  | some s => by_cases h : s = "" <;> simp [normStrFilter, truthyStr, h]

/-- Helper: the upper-bound date clause is unchanged by normalisation. -/
theorem clause_le_norm (ts x : Option String) :
    (!truthyStr (normStrFilter x) || sqlLe ts (normStrFilter x))
      = (!truthyStr x || sqlLe ts x) := by
  cases x with
  | none => rfl
  | some s => by_cases h : s = "" <;> simp [normStrFilter, truthyStr, h]

/-- Helper: a negated equality clause of the flat-file filter is
unchanged by normalisation. -/
theorem nclause_ne_norm (y x : Option String) :
    (!(truthyStr (normStrFilter x) && y != normStrFilter x))
      = (!(truthyStr x && y != x)) := by
  cases x with
  | none => rfl
  | some s => by_cases h : s = "" <;> simp [normStrFilter, truthyStr, h]

/-- Helper: the flat-file lower-bound date clause is unchanged by
normalisation. -/
theorem nclause_lt_norm (y x : Option String) :
    (!(truthyStr (normStrFilter x) && jsDateLt y (normStrFilter x)))
      = (!(truthyStr x && jsDateLt y x)) := by
  cases x with
  | none => rfl
  | some s => by_cases h : s = "" <;> simp [normStrFilter, truthyStr, h]

/-- Helper: the flat-file upper-bound date clause is unchanged by
normalisation. -/
theorem nclause_lt_norm2 (y x : Option String) :
    (!(truthyStr (normStrFilter x) && jsDateLt (normStrFilter x) y))
      = (!(truthyStr x && jsDateLt x y)) := by
  cases x with
  | none => rfl
  | some s => by_cases h : s = "" <;> simp [normStrFilter, truthyStr, h]

/-- Helper: the limit application is unchanged by normalisation. -/
theorem limit_norm {α : Type} (x : Option Nat) (l : List α) :
    (if truthyNat (normNatFilter x) then l.take ((normNatFilter x).getD 0) else l)
      = (if truthyNat x then l.take (x.getD 0) else l) := by
  cases x with
  | none => rfl
  | some n => by_cases h : n = 0 <;> simp [normNatFilter, truthyNat, h]

/-- Helper: the SQL WHERE predicate treats normalised and raw filters
identically. -/
theorem rowMatches_norm (f : Filters) (row : StoredRow) :
    rowMatches (normalizeFilters f) row = rowMatches f row := by
  rcases f with ⟨sid, rt, sd, ed, fl, lim⟩
  simp only [normalizeFilters, rowMatches]
  rw [clause_eq_norm, clause_eq_norm, clause_ge_norm, clause_le_norm, clause_eq_norm]

/-- Helper: the flat-file predicate treats normalised and raw filters
identically. -/
theorem readingMatches_norm (f : Filters) (r : SensorReading) :
    readingMatches (normalizeFilters f) r = readingMatches f r := by
  rcases f with ⟨sid, rt, sd, ed, fl, lim⟩
  simp only [normalizeFilters, readingMatches]
  rw [nclause_ne_norm, nclause_ne_norm, nclause_ne_norm, nclause_lt_norm,
      nclause_lt_norm2]

/-- Helper: the duckdb query is unchanged by filter normalisation. -/
theorem queryDataDuckDB_norm (st : ServiceState) (f : Filters) :
    queryDataDuckDB st (normalizeFilters f) = queryDataDuckDB st f := by
  unfold queryDataDuckDB
  rw [funext (rowMatches_norm f),
      show (normalizeFilters f).limit = normNatFilter f.limit from rfl]
  simp only [limit_norm]

/-- Helper: the sqlite query is unchanged by filter normalisation. -/
theorem queryDataSQLite_norm (st : ServiceState) (f : Filters) :
    queryDataSQLite st (normalizeFilters f) = queryDataSQLite st f := by
  unfold queryDataSQLite
  rw [funext (rowMatches_norm f),
      show (normalizeFilters f).limit = normNatFilter f.limit from rfl]
  simp only [limit_norm]

/-- Helper: the flat-file query is unchanged by filter normalisation. -/
theorem queryDataFallback_norm (st : ServiceState) (f : Filters) :
    queryDataFallback st (normalizeFilters f) = queryDataFallback st f := by
  unfold queryDataFallback fallbackQueryRecords
  rw [funext (readingMatches_norm f),
      show (normalizeFilters f).limit = normNatFilter f.limit from rfl]
  simp only [limit_norm]

/-- Helper: the query dispatch is unchanged by filter normalisation. -/
theorem queryData_norm (st : ServiceState) (f : Filters) :
    queryData st (normalizeFilters f) = queryData st f := by
  unfold queryData
  rw [queryDataDuckDB_norm, queryDataSQLite_norm, queryDataFallback_norm]

/-- C9: filter handling tests truthiness, not presence: on each of the
three backends a query behaves identically whether a falsy filter value
(`limit: 0`, empty-string `sensor_id` / `reading_type`) is supplied or
the filter is absent; in particular `query({limit: 0})` returns all
matching records rather than zero records. -/
theorem C9_falsy_filters_ignored (st : ServiceState) (f : Filters) :
    queryDataDuckDB st f = queryDataDuckDB st (normalizeFilters f)
    ∧ queryDataSQLite st f = queryDataSQLite st (normalizeFilters f)
    ∧ queryDataFallback st f = queryDataFallback st (normalizeFilters f)
    ∧ queryData st { limit := some 0 } = queryData st ({} : Filters)
    ∧ queryData st { sensor_id := some "", reading_type := some "" }
        = queryData st ({} : Filters) :=
  ⟨(queryDataDuckDB_norm st f).symm, (queryDataSQLite_norm st f).symm,
   (queryDataFallback_norm st f).symm,
   (show normalizeFilters { limit := some 0 } = ({} : Filters) from rfl)
     ▸ (queryData_norm st { limit := some 0 }).symm,
   (show normalizeFilters { sensor_id := some "", reading_type := some "" }
       = ({} : Filters) from rfl)
     ▸ (queryData_norm st { sensor_id := some "", reading_type := some "" }).symm⟩

/-- Helper: JS `x || d` on a truthy string is `x`. -/
theorem jsOrStr_truthy (x d : Option String) (h : truthyStr x = true) :
    jsOrStr x d = x := by
  unfold jsOrStr
  rw [h]
  rfl

/-- Helper: JS `x || d` on a truthy rational is `x`. -/
theorem jsOrRat_truthy (x d : Option Rat) (h : truthyRat x = true) :
    jsOrRat x d = x := by
  unfold jsOrRat
  rw [h]
  rfl

/-- Helper: JS `x || d` on a truthy integer is `x`. -/
theorem jsOrInt_truthy (x d : Option Int) (h : truthyInt x = true) :
    jsOrInt x d = x := by
  unfold jsOrInt
  rw [h]
  rfl

/-- Helper: every file the flat-file insert writes passes the `.json`
directory filter. -/
theorem hasJsonSuffix_append (s : String) : hasJsonSuffix (s ++ ".json") = true := by
  unfold hasJsonSuffix
  rw [String.data_append, List.isSuffixOf_iff_suffix]
  exact List.suffix_append _ _

/-- C4 counterexample: on the duckdb backend a valid reading with value 0
does not round-trip: the insert path evaluates `record.value || null`,
which coerces 0 to NULL, so the queried record carries a null value while
the inserted record carried 0 — the queryable fields differ. -/
theorem C4_counterexample :
    queryData stAfterZeroInsert { sensor_id := some "S1" } =
      .ok { success := true, payload := .rows [duckRow envDuck.now 1 rZero],
            source := "duckdb" }
    ∧ (duckRow envDuck.now 1 rZero).value = none
    ∧ rZero.value = some 0
    ∧ rowFieldsEqual (duckRow envDuck.now 1 rZero) rZero = false :=
  ⟨rfl, rfl, rfl, rfl⟩

/-- C4 amended: the insert/query round-trip holds on all three backends
for every valid reading whose supplied fields are truthy and whose
location attributes are nested under `location` (and, on the flat-file
backend, the inserted record is returned verbatim); the claimed edge
cases themselves fail on the database backends: a value of 0 and a
missing data_quality are rewritten by the duckdb insert coercions, and a
flattened top-level field attribute is dropped by the sqlite insert. -/
theorem C4_roundtrip_truthy (env : Env) (st : ServiceState) (r : SensorReading)
    (ht : truthyReading r = true) :
    (st.isAvailable = true → st.dbType = some DbType.duckdb → st.table = [] →
      ∀ st' res, insertData env st [r] = .ok (st', res) →
        res.success = true ∧ res.recordCount = 1 ∧
        ∃ row, queryData st' { sensor_id := r.sensor_id } =
            .ok { success := true, payload := .rows [row], source := "duckdb" }
          ∧ rowFieldsEqual row r = true)
    ∧ (st.isAvailable = true → st.dbType = some DbType.sqlite → st.table = [] →
      ∀ st' res, insertData env st [r] = .ok (st', res) →
        res.success = true ∧ res.recordCount = 1 ∧
        ∃ row, queryData st' { sensor_id := r.sensor_id } =
            .ok { success := true, payload := .rows [row], source := "sqlite" }
          ∧ rowFieldsEqual row r = true)
    ∧ (st.isAvailable = false → st.files = [] →
      ∀ st' res, insertData env st [r] = .ok (st', res) →
        res.success = true ∧ res.recordCount = 1 ∧
        queryData st' { sensor_id := r.sensor_id } =
          .ok { success := true, payload := .raw [r], source := "fallback" }) := by
  simp only [truthyReading, Bool.and_eq_true] at ht
  obtain ⟨⟨⟨⟨⟨⟨⟨⟨⟨⟨⟨⟨h1, h2⟩, h3⟩, h4⟩, h5⟩, h6⟩, h7⟩, h8⟩, h9⟩, h10⟩, h11⟩,
    h12⟩, h13⟩ := ht
  obtain ⟨p, db, av, ty, tab, nid, nh, fls⟩ := st
  refine ⟨fun hav hty htab => ?_, fun hav hty htab => ?_, fun hav hfiles => ?_⟩
  · simp only at hav hty htab
    subst hav
    subst hty
    subst htab
    intro st' res hins
    simp [insertData, insertDataDuckDB, insertRows] at hins
    obtain ⟨hst, hres⟩ := hins
    subst hst
    subst hres
    refine ⟨rfl, rfl, duckRow env.now nid r, ?_, ?_⟩
    · simp [queryData, queryDataDuckDB, rowMatches, duckRow,
            jsOrStr_truthy _ _ h1, h1, truthyStr, truthyNat, sortDescBy,
            insertDescBy, List.filter]
    · simp [rowFieldsEqual, duckRow, jsOrStr_truthy _ _ h1, jsOrStr_truthy _ _ h2,
            jsOrStr_truthy _ _ h3, jsOrRat_truthy _ _ h4, jsOrStr_truthy _ _ h5,
            jsOrStr_truthy _ _ h6, jsOrRat_truthy _ _ h7, jsOrRat_truthy _ _ h8,
            jsOrInt_truthy _ _ h9, jsOrInt_truthy _ _ h10, jsOrStr_truthy _ _ h11,
            jsOrStr_truthy _ _ h12, jsOrInt_truthy _ _ h13]
  · simp only at hav hty htab
    subst hav
    subst hty
    subst htab
    intro st' res hins
    simp [insertData, insertDataSQLite, insertRows] at hins
    obtain ⟨hst, hres⟩ := hins
    subst hst
    subst hres
    refine ⟨rfl, rfl, sqliteRow env.now nid r, ?_, ?_⟩
    · simp [queryData, queryDataSQLite, rowMatches, sqliteRow, h1, truthyStr,
            truthyNat, sortDescBy, insertDescBy, List.filter]
    · simp [rowFieldsEqual, sqliteRow, jsOrStr_truthy _ _ h12,
            jsOrInt_truthy _ _ h13]
  · simp only at hav hfiles
    subst hav
    subst hfiles
    intro st' res hins
    simp [insertData, insertDataFallback] at hins
    obtain ⟨hst, hres⟩ := hins
    subst hst
    subst hres
    refine ⟨rfl, rfl, ?_⟩
    simp [queryData, queryDataFallback, fallbackQueryRecords, readAllFallback,
          fallbackFileName, hasJsonSuffix_append, readingMatches, h1, truthyStr,
          truthyNat, sortDescBy, insertDescBy, List.filter]

/-- Witness for the amended C4 at the concrete truthy reading on all
three freshly initialized backends. -/
theorem C4_roundtrip_truthy_witness :
    (∃ row, queryData stTruthyDuck { sensor_id := rTruthy.sensor_id } =
        .ok { success := true, payload := .rows [row], source := "duckdb" }
      ∧ rowFieldsEqual row rTruthy = true)
    ∧ (∃ row, queryData stTruthySqlite { sensor_id := rTruthy.sensor_id } =
        .ok { success := true, payload := .rows [row], source := "sqlite" }
      ∧ rowFieldsEqual row rTruthy = true)
    ∧ queryData stTruthyFallback { sensor_id := rTruthy.sensor_id } =
        .ok { success := true, payload := .raw [rTruthy], source := "fallback" } :=
  ⟨((C4_roundtrip_truthy envDuck stDuckReady rTruthy (by decide)).1 rfl rfl rfl
      stTruthyDuck { success := true, recordCount := 1, filepath := none } rfl).2.2,
   ((C4_roundtrip_truthy envSqliteOnly stSqliteReady rTruthy (by decide)).2.1 rfl rfl
      rfl stTruthySqlite { success := true, recordCount := 1, filepath := none }
      rfl).2.2,
   ((C4_roundtrip_truthy envNoDb stFallbackReady rTruthy (by decide)).2.2 rfl rfl
      stTruthyFallback
      { success := true, recordCount := 1,
        filepath := some "/app/data/test-processed/processed_data_2025-06-01T10:00:00Z.json" }
      rfl).2.2⟩

/-- Invariant of the singleton system: while nothing is cached the
registry is entirely quiescent (no initialize call, no waiter, no
completed caller); once an instance is cached it is instance 0, exactly
one `StorageService.initialize()` was invoked, and every completed
caller received instance 0. -/
def SysInv (s : SysState) : Prop :=
  (s.inst = none →
     s.initCalls = 0 ∧ s.nextInstanceId = 0 ∧ s.isInitializing = false ∧
     s.initInFlight = false ∧ s.initResolved = false ∧
     ∀ t ∈ s.tasks, t = TaskState.start)
  ∧ (∀ v, s.inst = some v →
     v = 0 ∧ s.initCalls = 1 ∧ s.nextInstanceId = 1 ∧ s.initInFlight = true)
  ∧ (∀ v, TaskState.done v ∈ s.tasks → v = 0 ∧ s.inst = some 0)

/-- Preservation of the singleton invariant by every scheduler step. -/
theorem SysInv_step (s : SysState) (e : Ev) (h : SysInv s) : SysInv (stepSys s e) := by
  obtain ⟨hnone, hsome, hdone⟩ := h
  cases e with
  | call i =>
      cases hget : s.tasks[i]? with
      | none => simpa [stepSys, hget] using ⟨hnone, hsome, hdone⟩
      | some t =>
        cases t with
        | start =>
            cases hinst : s.inst with
            | some v =>
                have hv := hsome v hinst
                simp only [stepSys, hget, hinst]
                refine ⟨fun hn => by simp at hn, fun w hw => ?_, fun w hw => ?_⟩
                · simp only [Option.some.injEq] at hw
                  exact hw ▸ hsome v hinst
                · rcases List.mem_or_eq_of_mem_set hw with hmem | heq
                  · refine ⟨(hdone w hmem).1, ?_⟩
                    show some v = some 0
                    rw [← hinst]
                    exact (hdone w hmem).2
                  · obtain rfl : w = v := by injection heq
                    exact ⟨hv.1, by rw [hv.1]⟩
            | none =>
                have hq := hnone hinst
                simp only [stepSys, hget, hinst, hq.2.2.1, if_false, Bool.false_eq_true]
                refine ⟨fun hn => by simp at hn, fun w hw => ?_, fun w hw => ?_⟩
                · simp only [Option.some.injEq] at hw
                  exact ⟨by rw [← hw, hq.2.1], by rw [hq.1], by rw [hq.2.1], rfl⟩
                · rcases List.mem_or_eq_of_mem_set hw with hmem | heq
                  · exact absurd (hq.2.2.2.2.2 _ hmem) (by simp)
                  · exact absurd heq (by simp)
        | awaitingInit => simpa [stepSys, hget] using ⟨hnone, hsome, hdone⟩
        | awaitingOwnInit => simpa [stepSys, hget] using ⟨hnone, hsome, hdone⟩
        | done v => simpa [stepSys, hget] using ⟨hnone, hsome, hdone⟩
  | resolveInit =>
      cases hinst : s.inst with
      | none =>
          have hq := hnone hinst
          simpa [stepSys, hq.2.2.2.1] using ⟨hnone, hsome, hdone⟩
      | some v =>
          cases hc : (s.initInFlight && !s.initResolved) with
          | false => simpa [stepSys, hc] using ⟨hnone, hsome, hdone⟩
          | true =>
              simp only [stepSys, hc, if_true]
              refine ⟨fun hn => ?_, fun w hw => hsome w hw, fun w hw => hdone w hw⟩
              · rw [hinst] at hn
                simp at hn
  | resume i =>
      cases hres : s.initResolved with
      | false => simpa [stepSys, hres] using ⟨hnone, hsome, hdone⟩
      | true =>
          cases hget : s.tasks[i]? with
          | none => simpa [stepSys, hres, hget] using ⟨hnone, hsome, hdone⟩
          | some t =>
            cases t with
            | start => simpa [stepSys, hres, hget] using ⟨hnone, hsome, hdone⟩
            | done v => simpa [stepSys, hres, hget] using ⟨hnone, hsome, hdone⟩
            | awaitingOwnInit =>
                cases hinst : s.inst with
                | none => simpa [stepSys, hres, hget, hinst] using ⟨hnone, hsome, hdone⟩
                | some v =>
                    have hv := hsome v hinst
                    simp only [stepSys, hres, hget, hinst, if_true]
                    refine ⟨fun hn => by simp at hn, fun w hw => ?_, fun w hw => ?_⟩
                    · simp only [Option.some.injEq] at hw
                      exact hw ▸ ⟨hv.1, hv.2.1, hv.2.2.1, hv.2.2.2⟩
                    · rcases List.mem_or_eq_of_mem_set hw with hmem | heq
                      · refine ⟨(hdone w hmem).1, ?_⟩
                        show some v = some 0
                        rw [← hinst]
                        exact (hdone w hmem).2
                      · obtain rfl : w = v := by injection heq
                        exact ⟨hv.1, by rw [hv.1]⟩
            | awaitingInit =>
                cases hinst : s.inst with
                | none => simpa [stepSys, hres, hget, hinst] using ⟨hnone, hsome, hdone⟩
                | some v =>
                    have hv := hsome v hinst
                    simp only [stepSys, hres, hget, hinst, if_true]
                    refine ⟨fun hn => by simp at hn, fun w hw => ?_, fun w hw => ?_⟩
                    · simp only [Option.some.injEq] at hw
                      exact hw ▸ ⟨hv.1, hv.2.1, hv.2.2.1, hv.2.2.2⟩
                    · rcases List.mem_or_eq_of_mem_set hw with hmem | heq
                      · refine ⟨(hdone w hmem).1, ?_⟩
                        show some v = some 0
                        rw [← hinst]
                        exact (hdone w hmem).2
                      · obtain rfl : w = v := by injection heq
                        exact ⟨hv.1, by rw [hv.1]⟩

/-- The invariant holds along every schedule. -/
theorem SysInv_run (s : SysState) (evs : List Ev) (h : SysInv s) :
    SysInv (runSys s evs) := by
  induction evs generalizing s with
  | nil => exact h
  | cons e es ih => exact ih _ (SysInv_step s e h)

/-- The invariant holds initially. -/
theorem SysInv_initial (n : Nat) : SysInv (initialSys n) := by
  refine ⟨fun _ => ⟨rfl, rfl, rfl, rfl, rfl, fun t ht => ?_⟩,
          fun v hv => by simp [initialSys] at hv,
          fun v hv => ?_⟩
  · exact List.eq_of_mem_replicate ht
  · have := List.eq_of_mem_replicate (show TaskState.done v ∈
      List.replicate n TaskState.start from hv)
    simp at this

/-- C1 amended: across any number of concurrent first-time callers of
`getInstance` and any cooperative schedule, `StorageService.initialize()`
is invoked at most once, every caller that completes receives instance 0
with the initialize call having happened exactly once, and any two
completed callers received the identical instance reference.  (A caller
arriving while the first initialization is in flight does not suspend
until it resolves: it returns the already-cached instance immediately,
which is the part of the original claim that fails — see the
counterexample.) -/
theorem C1_singleton_exactly_once (n : Nat) (evs : List Ev) :
    (runSys (initialSys n) evs).initCalls ≤ 1
    ∧ (∀ v, TaskState.done v ∈ (runSys (initialSys n) evs).tasks →
        v = 0 ∧ (runSys (initialSys n) evs).initCalls = 1)
    ∧ (∀ v w, TaskState.done v ∈ (runSys (initialSys n) evs).tasks →
        TaskState.done w ∈ (runSys (initialSys n) evs).tasks → v = w) := by
  obtain ⟨hnone, hsome, hdone⟩ := SysInv_run (initialSys n) evs (SysInv_initial n)
  refine ⟨?_, fun v hv => ?_, fun v w hv hw => ?_⟩
  · cases hinst : (runSys (initialSys n) evs).inst with
    | none => simp [(hnone hinst).1]
    | some v => simp [(hsome v hinst).2.1]
  · obtain ⟨hv0, hinst⟩ := hdone v hv
    exact ⟨hv0, (hsome 0 hinst).2.1⟩
  · rw [(hdone v hv).1, (hdone w hw).1]

/-- Witness for the amended C1: in the schedule where two callers arrive,
the initialization resolves, and the first caller resumes, the completed
caller received instance 0 and exactly one initialize call happened. -/
theorem C1_singleton_exactly_once_witness :
    (0 : Nat) = 0
    ∧ (runSys (initialSys 2)
        [Ev.call 0, Ev.call 1, Ev.resolveInit, Ev.resume 0]).initCalls = 1 :=
  (C1_singleton_exactly_once 2 [Ev.call 0, Ev.call 1, Ev.resolveInit, Ev.resume 0]).2.1
    0 (by decide)

/-- C1 counterexample: with two concurrent first-time callers, the second
caller completes (resolving with the cached instance 0) while the first
initialization is still in flight and unresolved — the caller did not
suspend until the initialization resolved, contradicting the claimed
temporal behaviour (the exactly-once part does hold: one initialize call
was made). -/
theorem C1_counterexample :
    (runSys (initialSys 2) [Ev.call 0, Ev.call 1]).tasks[1]?
        = some (TaskState.done 0)
    ∧ (runSys (initialSys 2) [Ev.call 0, Ev.call 1]).initResolved = false
    ∧ (runSys (initialSys 2) [Ev.call 0, Ev.call 1]).initInFlight = true
    ∧ (runSys (initialSys 2) [Ev.call 0, Ev.call 1]).initCalls = 1 := by
  decide
